import Mathlib

/-!
# Collector probes: `info_schema.schemastats` and `globalStatusRequestRatesSum`

A shallow embedding of the two scrapers of the `collector` package
(`info_schema_schemastats.go`, `info_schema_global_status.go`) together with the
part of `database/sql` and of the Prometheus client they call.

* The database handle is a function from the query text to what `QueryContext`
  returns: an error, or a row iterator.  A row iterator is the list of rows for
  which `Next` reports true, the error `Err` would report afterwards, and the error
  `Close` would return.
* A Go string that comes out of the database is a list of bytes: it need not be
  valid UTF-8.  The texts written in the program (queries, metric names, label
  names, help) are Lean strings.
* The channel is the list of samples sent so far, oldest first.
* A run of `Scrape` yields its outcome (the returned error, or a panic), the
  samples it sent, and the query texts it handed to the database, in order.
* `uint64` values are natural numbers below `2 ^ 64`, and a `float64` sample value
  is the natural number it denotes.
* The package constants `namespace`, `informationSchema` and `userstatCheckQuery`
  are declared in another file of the package; they are parameters (`Consts`).
-/

namespace Collector

/-! ## Go strings -/

/-- A byte. -/
abbrev Byte := Fin 256

/-- A Go `string` or `[]byte` value: a sequence of bytes. -/
abbrev GoString := List Byte

/-- The byte `n mod 256`. -/
def byte (n : Nat) : Byte := ⟨n % 256, Nat.mod_lt n (by decide)⟩

/-- The UTF-8 encoding of a character. -/
def encodeChar (c : Char) : GoString :=
  let n := c.toNat
  if n < 0x80 then [byte n]
  else if n < 0x800 then [byte (0xC0 + n / 64), byte (0x80 + n % 64)]
  else if n < 0x10000 then
    [byte (0xE0 + n / 4096), byte (0x80 + n / 64 % 64), byte (0x80 + n % 64)]
  else
    [byte (0xF0 + n / 262144), byte (0x80 + n / 4096 % 64), byte (0x80 + n / 64 % 64),
      byte (0x80 + n % 64)]

/-- The Go string a string literal of the program denotes: its UTF-8 bytes. -/
def goString (s : String) : GoString := s.data.flatMap encodeChar

/-- A continuation byte, `80` to `BF`. -/
def isCont (b : Byte) : Bool := 0x80 ≤ b.val && b.val ≤ 0xBF

/-- The function `utf8.ValidString`: the bytes are a sequence of well-formed UTF-8
encodings, with no overlong form, no surrogate and nothing above `U+10FFFF`. -/
def utf8Valid : GoString → Bool
  | [] => true
  | b0 :: bs =>
    if b0.val < 0x80 then utf8Valid bs
    else
      match bs with
      | [] => false
      | b1 :: bs1 =>
        if 0xC2 ≤ b0.val && b0.val ≤ 0xDF then isCont b1 && utf8Valid bs1
        else
          match bs1 with
          | [] => false
          | b2 :: bs2 =>
            if b0.val = 0xE0 then
              0xA0 ≤ b1.val && b1.val ≤ 0xBF && isCont b2 && utf8Valid bs2
            else if (0xE1 ≤ b0.val && b0.val ≤ 0xEC) || b0.val = 0xEE || b0.val = 0xEF then
              isCont b1 && isCont b2 && utf8Valid bs2
            else if b0.val = 0xED then
              0x80 ≤ b1.val && b1.val ≤ 0x9F && isCont b2 && utf8Valid bs2
            else
              match bs2 with
              | [] => false
              | b3 :: bs3 =>
                if b0.val = 0xF0 then
                  0x90 ≤ b1.val && b1.val ≤ 0xBF && isCont b2 && isCont b3 && utf8Valid bs3
                else if 0xF1 ≤ b0.val && b0.val ≤ 0xF3 then
                  isCont b1 && isCont b2 && isCont b3 && utf8Valid bs3
                else if b0.val = 0xF4 then
                  0x80 ≤ b1.val && b1.val ≤ 0x8F && isCont b2 && isCont b3 && utf8Valid bs3
                else false

/-! ## `database/sql` -/

/-- Error values that reach the probes. -/
inductive Err
  /-- `context.Canceled` -/
  | canceled
  /-- `context.DeadlineExceeded` -/
  | deadlineExceeded
  /-- `sql.ErrNoRows` -/
  | errNoRows
  /-- `sql: Rows are closed` -/
  | errRowsClosed
  /-- `sql: expected <columns> destination arguments in Scan, not <dests>` -/
  | scanArgs (columns dests : Nat)
  /-- `sql: Scan error on column index <index>: <msg>` -/
  | scanColumn (index : Nat) (msg : String)
  /-- Any other error of the driver or of the server. -/
  | driver (msg : String)
  deriving DecidableEq, Repr

/-- A column value as the driver hands it to `Scan`. -/
inductive Value
  /-- SQL `NULL` -/
  | null
  /-- `int64` -/
  | int64 (i : Int)
  /-- `[]byte` or `string` -/
  | bytes (s : GoString)
  deriving DecidableEq, Repr

/-- A row for which `Next` has returned true. `cols` are its column values.
`scanErr` is the error with which `Rows.Scan` gives up before it looks at its
destinations, because the iterator was closed between `Next` and `Scan` (the
context was cancelled at that moment, say); `none` when the iterator is still
open. -/
structure Row where
  cols : List Value
  scanErr : Option Err
  deriving DecidableEq, Repr

/-- The row iterator `*sql.Rows`: `data` are the rows for which `Next` returns
true, in order; `err` is what `Rows.Err` returns once `Next` has returned false
(for instance `context.Canceled` when the iteration was cut short); `closeErr` is
what `Rows.Close` returns. All rows of a real result have the same number of
columns; the type does not enforce it. -/
structure Rows where
  data : List Row
  err : Option Err
  closeErr : Option Err
  deriving DecidableEq, Repr

/-- The handle `*sql.DB`, as far as the probes use it. -/
structure DB where
  QueryContext : String → Except Err Rows

/-- The function `strconv.ParseUint(s, 10, 64)`: a non-empty run of ASCII digits
whose value fits 64 bits. -/
def parseUint64 (s : GoString) : Option Nat :=
  match s with
  | [] => none
  | bs =>
    if bs.all (fun b => 48 ≤ b.val && b.val ≤ 57) then
      let n := bs.foldl (fun acc b => 10 * acc + (b.val - 48)) 0
      if n < 2 ^ 64 then some n else none
    else none

/-- The conversion `convertAssign` into a `*string` destination, for column `index`. -/
def scanString (index : Nat) : Value → Except Err GoString
  | .null => .error (.scanColumn index "converting NULL to string is unsupported")
  | .int64 i => .ok (goString (toString i))
  | .bytes s => .ok s

/-- The conversion `convertAssign` into a `*uint64` destination, for column `index`:
the value is printed and read back by `strconv.ParseUint`. -/
def scanUint64 (index : Nat) : Value → Except Err Nat
  | .null => .error (.scanColumn index "converting NULL to uint64 is unsupported")
  | .int64 i =>
    if 0 ≤ i ∧ i < 2 ^ 64 then .ok i.toNat
    else .error (.scanColumn index "converting driver.Value type int64 to a uint64")
  | .bytes s =>
    match parseUint64 s with
    | some n => .ok n
    | none => .error (.scanColumn index "converting driver.Value type []uint8 to a uint64")

/-- The columns of a row converted into `uint64` destinations, left to right,
starting at column `index`. -/
def scanUint64s (index : Nat) : List Value → Except Err (List Nat)
  | [] => .ok []
  | v :: vs =>
    match scanUint64 index v with
    | .error e => .error e
    | .ok n =>
      match scanUint64s (index + 1) vs with
      | .error e => .error e
      | .ok ns => .ok (n :: ns)

/-- The call `db.QueryRowContext(ctx, query).Scan(dest...)`, with `scan` the
`Rows.Scan` into the destinations: the query's error, else the iterator's error
or `sql.ErrNoRows` when there is no first row, else the error of scanning the
first row, else the error of closing the iterator. -/
def QueryRowScan {α : Type} (db : DB) (query : String)
    (scan : Row → Except Err α) : Except Err α :=
  match db.QueryContext query with
  | .error e => .error e
  | .ok rows =>
    match rows.data with
    | [] => .error (rows.err.getD .errNoRows)
    | row :: _ =>
      match scan row with
      | .error e => .error e
      | .ok v =>
        match rows.closeErr with
        | some e => .error e
        | none => .ok v

/-! ## Prometheus client -/

/-- Number of halvings that bring `n` below `2 ^ 53`, at most `fuel`. -/
def excessBits : Nat → Nat → Nat
  | 0, _ => 0
  | fuel + 1, n => if n < 2 ^ 53 then 0 else 1 + excessBits fuel (n / 2)

/-- The conversion `float64(n)` of a `uint64`: the value of the nearest number
with a 53-bit significand, ties to the even significand. The result is the
number the float denotes. -/
def float64 (n : Nat) : Nat :=
  if n < 2 ^ 53 then n
  else
    let shift := excessBits 64 n
    let q := n / 2 ^ shift
    let r := n % 2 ^ shift
    let half := 2 ^ (shift - 1)
    let q' := if half < r ∨ (r = half ∧ q % 2 = 1) then q + 1 else q
    q' * 2 ^ shift

/-- The function `prometheus.BuildFQName`. -/
def BuildFQName (ns subsystem name : String) : String :=
  if name = "" then ""
  else if ns ≠ "" ∧ subsystem ≠ "" then "_".intercalate [ns, subsystem, name]
  else if ns ≠ "" then "_".intercalate [ns, name]
  else if subsystem ≠ "" then "_".intercalate [subsystem, name]
  else name

/-- The check `model.IsValidMetricName`: `[a-zA-Z_:][a-zA-Z0-9_:]*`. -/
def IsValidMetricName (s : String) : Bool :=
  match s.data with
  | [] => false
  | c :: cs =>
    (c.isAlpha || c == '_' || c == ':') &&
      cs.all (fun d => d.isAlphanum || d == '_' || d == ':')

/-- The check `checkLabelName`: `[a-zA-Z_][a-zA-Z0-9_]*`, not starting with `__`. -/
def checkLabelName (s : String) : Bool :=
  match s.data with
  | [] => false
  | c :: cs =>
    (c.isAlpha || c == '_') && cs.all (fun d => d.isAlphanum || d == '_') &&
      !("__".data.isPrefixOf s.data)

/-- The descriptor `*prometheus.Desc`; `err` is the error `NewDesc` recorded. -/
structure Desc where
  fqName : String
  help : String
  variableLabels : List String
  err : Option String
  deriving DecidableEq, Repr

/-- The function `prometheus.NewDesc` without constant labels. -/
def NewDesc (fqName help : String) (variableLabels : List String) : Desc :=
  if !IsValidMetricName fqName then
    ⟨fqName, help, variableLabels, some "not a valid metric name"⟩
  else if !variableLabels.all checkLabelName then
    ⟨fqName, help, variableLabels, some "not a valid label name"⟩
  else if !decide variableLabels.Nodup then
    ⟨fqName, help, variableLabels, some "duplicate label names"⟩
  else ⟨fqName, help, variableLabels, none⟩

/-- The type `prometheus.ValueType`. -/
inductive ValueType
  | CounterValue
  | GaugeValue
  | UntypedValue
  deriving DecidableEq, Repr

/-- A constant metric: descriptor, kind, value and label values by position. -/
structure Metric where
  desc : Desc
  valType : ValueType
  val : Nat
  labelValues : List GoString
  deriving DecidableEq, Repr

/-- Why `NewConstMetric` fails. -/
inductive MetricErr
  /-- The descriptor carries an error. -/
  | descErr (msg : String)
  /-- The number of label values is not the number of label names. -/
  | inconsistentCardinality
  /-- A label value is not valid UTF-8. -/
  | invalidUTF8 (labelValue : GoString)
  deriving DecidableEq, Repr

/-- The function `validateLabelValues`: the count of the values, then the UTF-8
validity of each value, first to last. -/
def validateLabelValues (vals : List GoString) (expectedNumberOfValues : Nat) :
    Option MetricErr :=
  if vals.length ≠ expectedNumberOfValues then some .inconsistentCardinality
  else
    match vals.find? (fun val => !utf8Valid val) with
    | some val => some (.invalidUTF8 val)
    | none => none

/-- The function `prometheus.NewConstMetric`. -/
def NewConstMetric (desc : Desc) (valueType : ValueType) (value : Nat)
    (labelValues : List GoString) : Except MetricErr Metric :=
  match desc.err with
  | some msg => .error (.descErr msg)
  | none =>
    match validateLabelValues labelValues desc.variableLabels.length with
    | some e => .error e
    | none => .ok ⟨desc, valueType, value, labelValues⟩

/-! ## The package -/

/-- Package constants declared outside the two files. -/
structure Consts where
  namespace_ : String
  informationSchema : String
  userstatCheckQuery : String

/-- How a call of `Scrape` ends: it returns an error or nil, or
`MustNewConstMetric` panics. -/
inductive Outcome
  | returned (err : Option Err)
  | panicked (cause : MetricErr)
  deriving DecidableEq, Repr

/-- A run of `Scrape`. -/
structure Run where
  outcome : Outcome
  sent : List Metric
  queries : List String
  deriving DecidableEq, Repr

/-! ### `info_schema_schemastats.go` -/

def schemaStatQuery : String :=
  "\n\t\tSELECT \n\t\t\tTABLE_SCHEMA, \n\t\t\tSUM(ROWS_READ) AS ROWS_READ, \n\t\t\tSUM(ROWS_CHANGED) AS ROWS_CHANGED, \n\t\t\tSUM(ROWS_CHANGED_X_INDEXES) AS ROWS_CHANGED_X_INDEXES \n\t\tFROM information_schema.TABLE_STATISTICS \n\t\tGROUP BY TABLE_SCHEMA;\n\t\t"

def infoSchemaStatsRowsReadDesc (c : Consts) : Desc :=
  NewDesc
    (BuildFQName c.namespace_ c.informationSchema "schema_statistics_rows_read_total")
    "The number of rows read from the schema."
    ["schema"]

def infoSchemaStatsRowsChangedDesc (c : Consts) : Desc :=
  NewDesc
    (BuildFQName c.namespace_ c.informationSchema "schema_statistics_rows_changed_total")
    "The number of rows changed in the schema."
    ["schema"]

def infoSchemaStatsRowsChangedXIndexesDesc (c : Consts) : Desc :=
  NewDesc
    (BuildFQName c.namespace_ c.informationSchema
      "schema_statistics_rows_changed_x_indexes_total")
    "The number of rows changed in the schema, multiplied by the number of indexes changed."
    ["schema"]

/-- The call `Scan(&varName, &varVal)` on a row. -/
def scanUserstat (row : Row) : Except Err (GoString × GoString) :=
  match row.scanErr with
  | some e => .error e
  | none =>
    match row.cols with
    | [c0, c1] =>
      match scanString 0 c0 with
      | .error e => .error e
      | .ok varName =>
        match scanString 1 c1 with
        | .error e => .error e
        | .ok varVal => .ok (varName, varVal)
    | cols => .error (.scanArgs cols.length 2)

/-- The call `Scan(&tableSchema, &rowsRead, &rowsChanged, &rowsChangedXIndexes)`
on a row. -/
def scanSchemaStat (row : Row) : Except Err (GoString × Nat × Nat × Nat) :=
  match row.scanErr with
  | some e => .error e
  | none =>
    match row.cols with
    | [c0, c1, c2, c3] =>
      match scanString 0 c0 with
      | .error e => .error e
      | .ok tableSchema =>
        match scanUint64 1 c1 with
        | .error e => .error e
        | .ok rowsRead =>
          match scanUint64 2 c2 with
          | .error e => .error e
          | .ok rowsChanged =>
            match scanUint64 3 c3 with
            | .error e => .error e
            | .ok rowsChangedXIndexes =>
              .ok (tableSchema, rowsRead, rowsChanged, rowsChangedXIndexes)
    | cols => .error (.scanArgs cols.length 4)

/-- The loop `for informationSchemaTableStatisticsRows.Next() { ... }` over the
rows still to come, with `ch` the samples sent so far. -/
def ScrapeSchemaStat.rowsLoop (c : Consts) :
    List Row → List Metric → Outcome × List Metric
  | [], ch => (.returned none, ch)
  | row :: rest, ch =>
    match scanSchemaStat row with
    | .error err => (.returned (some err), ch)
    | .ok (tableSchema, rowsRead, rowsChanged, rowsChangedXIndexes) =>
      match NewConstMetric (infoSchemaStatsRowsReadDesc c) .CounterValue
          (float64 rowsRead) [tableSchema] with
      | .error p => (.panicked p, ch)
      | .ok m1 =>
        match NewConstMetric (infoSchemaStatsRowsChangedDesc c) .CounterValue
            (float64 rowsChanged) [tableSchema] with
        | .error p => (.panicked p, ch ++ [m1])
        | .ok m2 =>
          match NewConstMetric (infoSchemaStatsRowsChangedXIndexesDesc c) .CounterValue
              (float64 rowsChangedXIndexes) [tableSchema] with
          | .error p => (.panicked p, ch ++ [m1, m2])
          | .ok m3 => ScrapeSchemaStat.rowsLoop c rest (ch ++ [m1, m2, m3])

/-- The method `ScrapeSchemaStat.Scrape`. -/
def ScrapeSchemaStat.Scrape (c : Consts) (db : DB) : Run :=
  match QueryRowScan db c.userstatCheckQuery scanUserstat with
  | .error _ => ⟨.returned none, [], [c.userstatCheckQuery]⟩
  | .ok (_, varVal) =>
    if varVal = goString "OFF" then ⟨.returned none, [], [c.userstatCheckQuery]⟩
    else
      match db.QueryContext schemaStatQuery with
      | .error err => ⟨.returned (some err), [], [c.userstatCheckQuery, schemaStatQuery]⟩
      | .ok informationSchemaTableStatisticsRows =>
        let r := ScrapeSchemaStat.rowsLoop c informationSchemaTableStatisticsRows.data []
        ⟨r.1, r.2, [c.userstatCheckQuery, schemaStatQuery]⟩

/-! ### `info_schema_global_status.go` -/

def globalStatusRequestRatesQuery : String :=
  "\n\tSELECT\n\t\tSUM(variable_value) AS SUM_REQUEST_RATE\n\t\tFROM information_schema.global_status\n\t\tWHERE variable_name IN (\x27com_select\x27, \x27com_update\x27, \x27com_delete\x27, \x27com_insert\x27);\n\t"

def informationSchemaGlobalStatusRequestSumTotalDesc (c : Consts) : Desc :=
  NewDesc
    (BuildFQName c.namespace_ c.informationSchema "global_status_request_rate")
    "The total count of requests."
    []

/-- The call `Scan(&total, &createdTmpDiskTables, ..., &warnings)` on a row:
twenty-one `uint64` destinations, of which `total` is the first. The result is
the new value of `total`. -/
def scanGlobalStatus (row : Row) : Except Err Nat :=
  match row.scanErr with
  | some e => .error e
  | none =>
    if row.cols.length ≠ 21 then .error (.scanArgs row.cols.length 21)
    else
      match scanUint64s 0 row.cols with
      | .error e => .error e
      | .ok dests => .ok (dests.headD 0)

/-- The loop `for globalStatusRequestRatesRows.Next() { ... }` over the rows still
to come, with `ch` the samples sent so far. -/
def ScrapeGlobalStatusRequestRatesSum.rowsLoop (c : Consts) :
    List Row → List Metric → Outcome × List Metric
  | [], ch => (.returned none, ch)
  | row :: rest, ch =>
    match scanGlobalStatus row with
    | .error err => (.returned (some err), ch)
    | .ok total =>
      match NewConstMetric (informationSchemaGlobalStatusRequestSumTotalDesc c)
          .CounterValue (float64 total) [] with
      | .error p => (.panicked p, ch)
      | .ok m => ScrapeGlobalStatusRequestRatesSum.rowsLoop c rest (ch ++ [m])

/-- The method `ScrapeGlobalStatusRequestRatesSum.Scrape`. -/
def ScrapeGlobalStatusRequestRatesSum.Scrape (c : Consts) (db : DB) : Run :=
  match db.QueryContext globalStatusRequestRatesQuery with
  | .error err => ⟨.returned (some err), [], [globalStatusRequestRatesQuery]⟩
  | .ok globalStatusRequestRatesRows =>
    let r := ScrapeGlobalStatusRequestRatesSum.rowsLoop c globalStatusRequestRatesRows.data []
    ⟨r.1, r.2, [globalStatusRequestRatesQuery]⟩

/-! ## Vocabulary of the statements -/

/-- The three samples of one scanned row `(tableSchema, rowsRead, rowsChanged,
rowsChangedXIndexes)`, in the order the loop body sends them. -/
def schemaStatSamples (c : Consts) (p : GoString × Nat × Nat × Nat) : List Metric :=
  [⟨infoSchemaStatsRowsReadDesc c, .CounterValue, float64 p.2.1, [p.1]⟩,
   ⟨infoSchemaStatsRowsChangedDesc c, .CounterValue, float64 p.2.2.1, [p.1]⟩,
   ⟨infoSchemaStatsRowsChangedXIndexesDesc c, .CounterValue, float64 p.2.2.2, [p.1]⟩]

/-- The sample of one scanned row of the global-status probe. -/
def globalStatusSample (c : Consts) (total : Nat) : Metric :=
  ⟨informationSchemaGlobalStatusRequestSumTotalDesc c, .CounterValue, float64 total, []⟩

/-- The three schema-statistics descriptors were built without error, which is
to say that the package constants make valid metric names. -/
def schemaStatDescsOk (c : Consts) : Prop :=
  (infoSchemaStatsRowsReadDesc c).err = none ∧
  (infoSchemaStatsRowsChangedDesc c).err = none ∧
  (infoSchemaStatsRowsChangedXIndexesDesc c).err = none

/-- A sample without its numeric value: descriptor, kind and ordered label values. -/
def Metric.identity (m : Metric) : Desc × ValueType × List GoString :=
  (m.desc, m.valType, m.labelValues)

/-- A lower-case identifier: a lower-case letter or underscore, then lower-case
letters, digits and underscores. -/
def isLowerCaseIdentifier (s : String) : Bool :=
  match s.data with
  | [] => false
  | c :: cs =>
    (c.isLower || c == '_') && cs.all (fun d => d.isLower || d.isDigit || d == '_')

/-- Whether the userstat lookup lets `ScrapeSchemaStat.Scrape` go on: it succeeded
with a value other than `"OFF"`. -/
def gateOpen (c : Consts) (db : DB) : Bool :=
  match QueryRowScan db c.userstatCheckQuery scanUserstat with
  | .error _ => false
  | .ok (_, varVal) => varVal != goString "OFF"

/-! ## Concrete inputs -/

/-- Constants with which the descriptors are valid. -/
def exampleConsts : Consts :=
  ⟨"mysql", "info_schema", "SHOW VARIABLES WHERE Variable_Name=\x27userstat\x27"⟩

/-- A database that answers the userstat lookup with `gate`, the statistics
query with `stats` and the request-rate query with `rates`. -/
def exampleDB (gate stats rates : Except Err Rows) : DB :=
  ⟨fun q =>
    if q = exampleConsts.userstatCheckQuery then gate
    else if q = schemaStatQuery then stats
    else if q = globalStatusRequestRatesQuery then rates
    else .error (.driver "unknown query")⟩

/-- The column value holding the text `s`. -/
def text (s : String) : Value := .bytes (goString s)

/-- The userstat lookup answering `userstat = val`. -/
def userstatIs (val : String) : Except Err Rows :=
  .ok ⟨[⟨[text "userstat", text val], none⟩], none, none⟩

/-- The row `(schema, rowsRead, rowsChanged, rowsChangedXIndexes)` of the statistics
query, its columns as text. -/
def statRow (schema : GoString) (rowsRead rowsChanged rowsChangedXIndexes : String) : Row :=
  ⟨[.bytes schema, text rowsRead, text rowsChanged, text rowsChangedXIndexes], none⟩

/-- The rows `("app", 100, 5, 7)` and `("sys", 3, 0, 2)`. -/
def appSysRows : List Row :=
  [statRow (goString "app") "100" "5" "7", statRow (goString "sys") "3" "0" "2"]

/-- The rows `("app", 250, 9, 11)` and `("sys", 3, 1, 2)`: the schemas of
`appSysRows` with other counts. -/
def appSysRowsLater : List Row :=
  [statRow (goString "app") "250" "9" "11", statRow (goString "sys") "3" "1" "2"]

/-- The rows `("app", 100, 5, 7)` and `("sys", NULL, 0, 2)`: the schemas of
`appSysRows`, the second row with no `ROWS_READ`. -/
def appSysNullRows : List Row :=
  [statRow (goString "app") "100" "5" "7",
   ⟨[text "sys", .null, text "0", text "2"], none⟩]

/-- The two rows of three columns `("app", 100, 5)` and `("sys", 3, 0)`. -/
def appSysNarrowRows : List Row :=
  [⟨[text "app", text "100", text "5"], none⟩, ⟨[text "sys", text "3", text "0"], none⟩]

/-- The rows `("app", 100, 5, 7)` and `(<FF FE>, 1, 2, 3)`: the second schema name
is two bytes that are not UTF-8. -/
def invalidSchemaRows : List Row :=
  [statRow (goString "app") "100" "5" "7", statRow [0xFF, 0xFE] "1" "2" "3"]

/-- The row `(<FF FE>, 1, 2, 3)` followed by a row whose `ROWS_READ` is NULL. -/
def invalidThenBadRows : List Row :=
  [statRow [0xFF, 0xFE] "1" "2" "3", ⟨[text "tmp", .null, text "1", text "1"], none⟩]

/-- A row of twenty-one columns, the first holding `total`. -/
def wideRow (total : Value) : Row :=
  ⟨total :: List.replicate 20 (.int64 0), none⟩

/-- A database whose gate is open and whose two main queries fail. -/
def failingQueriesDB : DB :=
  exampleDB (userstatIs "ON") (.error (.driver "no such table")) (.error .deadlineExceeded)

/-- A database whose gate is open; the statistics query answers `("app", 100, 5, 7)`,
then a row whose `ROWS_READ` is NULL, then `("sys", 3, 0, 2)`; the request-rate
query answers three rows of twenty-one columns, the first column being `5`, NULL
and `9`. -/
def badRowDB : DB :=
  exampleDB (userstatIs "ON")
    (.ok ⟨[statRow (goString "app") "100" "5" "7",
           ⟨[text "tmp", .null, text "1", text "1"], none⟩,
           statRow (goString "sys") "3" "0" "2"], none, none⟩)
    (.ok ⟨[wideRow (.int64 5), wideRow .null, wideRow (.int64 9)], none, none⟩)

/-- A database whose gate is open and whose two iterators are closed by a cancelled
context after `Next` has delivered the second row and before `Scan` reads it. -/
def closedUnderScanDB : DB :=
  exampleDB (userstatIs "ON")
    (.ok ⟨[statRow (goString "app") "100" "5" "7",
           ⟨[text "sys", text "3", text "0", text "2"], some .canceled⟩],
      some .canceled, some .canceled⟩)
    (.ok ⟨[wideRow (.int64 5), ⟨(wideRow (.int64 9)).cols, some .canceled⟩],
      some .canceled, some .canceled⟩)

/-- A database on which the userstat lookup is cut off by a cancelled context. -/
def cancelledGateDB : DB :=
  exampleDB (.error .canceled) (.ok ⟨appSysRows, none, none⟩)
    (.ok ⟨[wideRow (.int64 5)], none, none⟩)

/-- A database whose gate is open and whose two row iterators stop after their
first row with the error of a cancelled context. -/
def cancelledIterationDB : DB :=
  exampleDB (userstatIs "ON")
    (.ok ⟨[statRow (goString "app") "100" "5" "7"], some .canceled, some .canceled⟩)
    (.ok ⟨[wideRow (.int64 5)], some .canceled, some .canceled⟩)

/-- A database whose gate is open and whose two main queries are cut off by a
cancelled context. -/
def cancelledQueryDB : DB :=
  exampleDB (userstatIs "ON") (.error .canceled) (.error .canceled)

/-! ## Lemmas -/

set_option maxRecDepth 100000

theorem NewDesc_fqName (n h : String) (l : List String) : (NewDesc n h l).fqName = n := by
  unfold NewDesc; split_ifs <;> rfl

theorem NewDesc_variableLabels (n h : String) (l : List String) :
    (NewDesc n h l).variableLabels = l := by
  unfold NewDesc; split_ifs <;> rfl

theorem validateLabelValues_of_valid (ls : List GoString) (n : Nat) (hl : ls.length = n)
    (hu : ∀ l ∈ ls, utf8Valid l = true) : validateLabelValues ls n = none := by
  unfold validateLabelValues
  rw [if_neg (not_not.mpr hl)]
  have hfind : ls.find? (fun val => !utf8Valid val) = none := by
    rw [List.find?_eq_none]
    intro l hmem
    simp [hu l hmem]
  rw [hfind]

theorem validateLabelValues_cardinality (ls : List GoString) (n : Nat) (hl : ls.length = n) :
    validateLabelValues ls n ≠ some .inconsistentCardinality := by
  unfold validateLabelValues
  rw [if_neg (not_not.mpr hl)]
  split <;> simp

theorem validateLabelValues_none_length (ls : List GoString) (n : Nat)
    (h : validateLabelValues ls n = none) : ls.length = n := by
  unfold validateLabelValues at h
  by_contra hne
  rw [if_pos hne] at h
  cases h

theorem NewConstMetric_of_ok (d : Desc) (vt : ValueType) (v : Nat) (ls : List GoString)
    (hd : d.err = none) (hl : ls.length = d.variableLabels.length)
    (hu : ∀ l ∈ ls, utf8Valid l = true) :
    NewConstMetric d vt v ls = .ok ⟨d, vt, v, ls⟩ := by
  simp [NewConstMetric, hd, validateLabelValues_of_valid ls _ hl hu]

theorem NewConstMetric_length (d : Desc) (vt : ValueType) (v : Nat) (ls : List GoString)
    (m : Metric) (h : NewConstMetric d vt v ls = .ok m) :
    m.labelValues.length = m.desc.variableLabels.length ∧ m = ⟨d, vt, v, ls⟩ := by
  unfold NewConstMetric at h
  split at h
  · cases h
  · split at h
    · cases h
    · rename_i hval
      cases h
      exact ⟨validateLabelValues_none_length _ _ hval, rfl⟩

theorem NewConstMetric_cardinality (d : Desc) (vt : ValueType) (v : Nat) (ls : List GoString)
    (hl : ls.length = d.variableLabels.length) :
    NewConstMetric d vt v ls ≠ .error .inconsistentCardinality := by
  unfold NewConstMetric
  split
  · simp
  · split
    · rename_i e hval
      intro h
      cases h
      exact validateLabelValues_cardinality ls _ hl hval
    · simp

/-- Whether `NewConstMetric` fails, and how, does not depend on the value. -/
theorem NewConstMetric_cases (d : Desc) (vt : ValueType) (ls : List GoString) :
    (∃ p, ∀ v, NewConstMetric d vt v ls = .error p) ∨
    (∀ v, NewConstMetric d vt v ls = .ok ⟨d, vt, v, ls⟩) := by
  unfold NewConstMetric
  cases d.err with
  | some msg => exact Or.inl ⟨_, fun _ => rfl⟩
  | none =>
    cases validateLabelValues ls d.variableLabels.length with
    | some e => exact Or.inl ⟨_, fun _ => rfl⟩
    | none => exact Or.inr (fun _ => rfl)

theorem schemaStat_label_count (c : Consts) (s : GoString) :
    [s].length = (infoSchemaStatsRowsReadDesc c).variableLabels.length ∧
    [s].length = (infoSchemaStatsRowsChangedDesc c).variableLabels.length ∧
    [s].length = (infoSchemaStatsRowsChangedXIndexesDesc c).variableLabels.length := by
  simp [infoSchemaStatsRowsReadDesc, infoSchemaStatsRowsChangedDesc,
    infoSchemaStatsRowsChangedXIndexesDesc, NewDesc_variableLabels]

theorem globalStatus_label_count (c : Consts) :
    ([] : List GoString).length =
      (informationSchemaGlobalStatusRequestSumTotalDesc c).variableLabels.length := by
  simp [informationSchemaGlobalStatusRequestSumTotalDesc, NewDesc_variableLabels]

/-- One pass of the schema-statistics loop body over a row that scans and whose
schema name is valid UTF-8. -/
theorem schemaStat_rowsLoop_step (c : Consts) (hd : schemaStatDescsOk c)
    (row : Row) (rest : List Row) (ch : List Metric)
    (p : GoString × Nat × Nat × Nat) (h : scanSchemaStat row = .ok p)
    (hu : utf8Valid p.1 = true) :
    ScrapeSchemaStat.rowsLoop c (row :: rest) ch =
      ScrapeSchemaStat.rowsLoop c rest (ch ++ schemaStatSamples c p) := by
  obtain ⟨s, a, b, x⟩ := p
  obtain ⟨h1, h2, h3⟩ := hd
  obtain ⟨l1, l2, l3⟩ := schemaStat_label_count c s
  have hs : ∀ l ∈ [s], utf8Valid l = true := by
    intro l hl
    rw [List.mem_singleton] at hl
    subst hl
    exact hu
  rw [ScrapeSchemaStat.rowsLoop]
  simp only [h, NewConstMetric_of_ok _ _ _ _ h1 l1 hs, NewConstMetric_of_ok _ _ _ _ h2 l2 hs,
    NewConstMetric_of_ok _ _ _ _ h3 l3 hs, schemaStatSamples]

/-- The schema-statistics loop over a run of rows that scan, followed by `rest`. -/
theorem schemaStat_rowsLoop_append (c : Consts) (hd : schemaStatDescsOk c) :
    ∀ (parsed : List (GoString × Nat × Nat × Nat)) (pre rest : List Row)
      (ch : List Metric),
      pre.map scanSchemaStat = parsed.map Except.ok →
      (∀ p ∈ parsed, utf8Valid p.1 = true) →
      ScrapeSchemaStat.rowsLoop c (pre ++ rest) ch =
        ScrapeSchemaStat.rowsLoop c rest (ch ++ parsed.flatMap (schemaStatSamples c)) := by
  intro parsed
  induction parsed with
  | nil =>
    intro pre rest ch h _
    have hpre : pre = [] := by simpa using h
    subst hpre
    simp
  | cons p ps ih =>
    intro pre rest ch h hu
    cases pre with
    | nil => simp at h
    | cons row pre =>
      simp only [List.map_cons, List.cons.injEq] at h
      rw [List.cons_append,
        schemaStat_rowsLoop_step c hd row _ ch p h.1 (hu p (List.mem_cons_self _ _)),
        ih pre rest _ h.2 (fun q hq => hu q (List.mem_cons_of_mem _ hq))]
      simp [List.flatMap_cons, List.append_assoc]

theorem schemaStat_rowsLoop_nil (c : Consts) (ch : List Metric) :
    ScrapeSchemaStat.rowsLoop c [] ch = (.returned none, ch) := by
  rw [ScrapeSchemaStat.rowsLoop]

theorem schemaStat_rowsLoop_bad (c : Consts) (row : Row) (rest : List Row)
    (ch : List Metric) (e : Err) (h : scanSchemaStat row = .error e) :
    ScrapeSchemaStat.rowsLoop c (row :: rest) ch = (.returned (some e), ch) := by
  rw [ScrapeSchemaStat.rowsLoop]
  simp only [h]

/-- One pass of the global-status loop body over a row that scans. -/
theorem globalStatus_rowsLoop_step (c : Consts)
    (hd : (informationSchemaGlobalStatusRequestSumTotalDesc c).err = none)
    (row : Row) (rest : List Row) (ch : List Metric)
    (total : Nat) (h : scanGlobalStatus row = .ok total) :
    ScrapeGlobalStatusRequestRatesSum.rowsLoop c (row :: rest) ch =
      ScrapeGlobalStatusRequestRatesSum.rowsLoop c rest (ch ++ [globalStatusSample c total]) := by
  rw [ScrapeGlobalStatusRequestRatesSum.rowsLoop]
  simp only [h, NewConstMetric_of_ok _ _ _ _ hd (globalStatus_label_count c)
    (fun l hl => by cases hl), globalStatusSample]

/-- The global-status loop over a run of rows that scan, followed by `rest`. -/
theorem globalStatus_rowsLoop_append (c : Consts)
    (hd : (informationSchemaGlobalStatusRequestSumTotalDesc c).err = none) :
    ∀ (parsed : List Nat) (pre rest : List Row) (ch : List Metric),
      pre.map scanGlobalStatus = parsed.map Except.ok →
      ScrapeGlobalStatusRequestRatesSum.rowsLoop c (pre ++ rest) ch =
        ScrapeGlobalStatusRequestRatesSum.rowsLoop c rest
          (ch ++ parsed.map (globalStatusSample c)) := by
  intro parsed
  induction parsed with
  | nil =>
    intro pre rest ch h
    have hpre : pre = [] := by simpa using h
    subst hpre
    simp
  | cons p ps ih =>
    intro pre rest ch h
    cases pre with
    | nil => simp at h
    | cons row pre =>
      simp only [List.map_cons, List.cons.injEq] at h
      rw [List.cons_append, globalStatus_rowsLoop_step c hd row _ ch p h.1, ih pre rest _ h.2]
      simp [List.append_assoc]

theorem globalStatus_rowsLoop_nil (c : Consts) (ch : List Metric) :
    ScrapeGlobalStatusRequestRatesSum.rowsLoop c [] ch = (.returned none, ch) := by
  rw [ScrapeGlobalStatusRequestRatesSum.rowsLoop]

theorem globalStatus_rowsLoop_bad (c : Consts) (row : Row)
    (rest : List Row) (ch : List Metric) (e : Err)
    (h : scanGlobalStatus row = .error e) :
    ScrapeGlobalStatusRequestRatesSum.rowsLoop c (row :: rest) ch =
      (.returned (some e), ch) := by
  rw [ScrapeGlobalStatusRequestRatesSum.rowsLoop]
  simp only [h]

/-- What `ScrapeSchemaStat.Scrape` does once the gate is passed. -/
theorem schemaStat_Scrape_open (c : Consts) (db : DB) (varName varVal : GoString)
    (hgate : QueryRowScan db c.userstatCheckQuery scanUserstat = .ok (varName, varVal))
    (hon : varVal ≠ goString "OFF") :
    ScrapeSchemaStat.Scrape c db =
      match db.QueryContext schemaStatQuery with
      | .error err => ⟨.returned (some err), [], [c.userstatCheckQuery, schemaStatQuery]⟩
      | .ok rows =>
        ⟨(ScrapeSchemaStat.rowsLoop c rows.data []).1,
         (ScrapeSchemaStat.rowsLoop c rows.data []).2,
         [c.userstatCheckQuery, schemaStatQuery]⟩ := by
  unfold ScrapeSchemaStat.Scrape
  simp only [hgate, hon, if_false]

/-- The schema-statistics loop never meets a label-count mismatch, and every
sample it sends carries one label value for the one label name. -/
theorem schemaStat_rowsLoop_cardinality (c : Consts) :
    ∀ (rows : List Row) (ch : List Metric),
      (∀ m ∈ ch, m.labelValues.length = m.desc.variableLabels.length ∧
        m.labelValues.length = 1) →
      (∀ m ∈ (ScrapeSchemaStat.rowsLoop c rows ch).2,
        m.labelValues.length = m.desc.variableLabels.length ∧ m.labelValues.length = 1) ∧
      (ScrapeSchemaStat.rowsLoop c rows ch).1 ≠ .panicked .inconsistentCardinality := by
  intro rows
  induction rows with
  | nil =>
    intro ch hch
    rw [schemaStat_rowsLoop_nil]
    exact ⟨hch, by simp⟩
  | cons row rest ih =>
    intro ch hch
    rw [ScrapeSchemaStat.rowsLoop]
    cases hscan : scanSchemaStat row with
    | error e => exact ⟨hch, by simp⟩
    | ok p =>
      obtain ⟨s, a, b, x⟩ := p
      obtain ⟨l1, l2, l3⟩ := schemaStat_label_count c s
      simp only
      cases h1 : NewConstMetric (infoSchemaStatsRowsReadDesc c) .CounterValue
          (float64 a) [s] with
      | error q =>
        refine ⟨hch, ?_⟩
        intro hq
        simp only [Outcome.panicked.injEq] at hq
        exact NewConstMetric_cardinality _ _ _ _ l1 (hq ▸ h1)
      | ok m1 =>
        have k1 := NewConstMetric_length _ _ _ _ _ h1
        simp only
        cases h2 : NewConstMetric (infoSchemaStatsRowsChangedDesc c) .CounterValue
            (float64 b) [s] with
        | error q =>
          refine ⟨?_, ?_⟩
          · intro m hm
            rcases List.mem_append.mp hm with hm | hm
            · exact hch m hm
            · simp only [List.mem_singleton] at hm
              subst hm
              exact ⟨k1.1, by rw [k1.2]; rfl⟩
          · intro hq
            simp only [Outcome.panicked.injEq] at hq
            exact NewConstMetric_cardinality _ _ _ _ l2 (hq ▸ h2)
        | ok m2 =>
          have k2 := NewConstMetric_length _ _ _ _ _ h2
          simp only
          cases h3 : NewConstMetric (infoSchemaStatsRowsChangedXIndexesDesc c)
              .CounterValue (float64 x) [s] with
          | error q =>
            refine ⟨?_, ?_⟩
            · intro m hm
              rcases List.mem_append.mp hm with hm | hm
              · exact hch m hm
              · simp only [List.mem_cons, List.mem_singleton, List.not_mem_nil,
                  or_false] at hm
                rcases hm with hm | hm
                · subst hm
                  exact ⟨k1.1, by rw [k1.2]; rfl⟩
                · subst hm
                  exact ⟨k2.1, by rw [k2.2]; rfl⟩
            · intro hq
              simp only [Outcome.panicked.injEq] at hq
              exact NewConstMetric_cardinality _ _ _ _ l3 (hq ▸ h3)
          | ok m3 =>
            have k3 := NewConstMetric_length _ _ _ _ _ h3
            simp only
            apply ih
            intro m hm
            rcases List.mem_append.mp hm with hm | hm
            · exact hch m hm
            · simp only [List.mem_cons, List.mem_singleton, List.not_mem_nil,
                or_false] at hm
              rcases hm with hm | hm | hm
              · subst hm
                exact ⟨k1.1, by rw [k1.2]; rfl⟩
              · subst hm
                exact ⟨k2.1, by rw [k2.2]; rfl⟩
              · subst hm
                exact ⟨k3.1, by rw [k3.2]; rfl⟩

/-- The global-status loop never meets a label-count mismatch, and every sample
it sends carries no label value for no label name. -/
theorem globalStatus_rowsLoop_cardinality (c : Consts) :
    ∀ (rows : List Row) (ch : List Metric),
      (∀ m ∈ ch, m.labelValues.length = m.desc.variableLabels.length ∧
        m.labelValues.length = 0) →
      (∀ m ∈ (ScrapeGlobalStatusRequestRatesSum.rowsLoop c rows ch).2,
        m.labelValues.length = m.desc.variableLabels.length ∧ m.labelValues.length = 0) ∧
      (ScrapeGlobalStatusRequestRatesSum.rowsLoop c rows ch).1 ≠
        .panicked .inconsistentCardinality := by
  intro rows
  induction rows with
  | nil =>
    intro ch hch
    rw [globalStatus_rowsLoop_nil]
    exact ⟨hch, by simp⟩
  | cons row rest ih =>
    intro ch hch
    rw [ScrapeGlobalStatusRequestRatesSum.rowsLoop]
    cases hscan : scanGlobalStatus row with
    | error e => exact ⟨hch, by simp⟩
    | ok total =>
      simp only
      cases h1 : NewConstMetric (informationSchemaGlobalStatusRequestSumTotalDesc c)
          .CounterValue (float64 total) [] with
      | error q =>
        refine ⟨hch, ?_⟩
        intro hq
        simp only [Outcome.panicked.injEq] at hq
        exact NewConstMetric_cardinality _ _ _ _ (globalStatus_label_count c) (hq ▸ h1)
      | ok m1 =>
        have k1 := NewConstMetric_length _ _ _ _ _ h1
        simp only
        apply ih
        intro m hm
        rcases List.mem_append.mp hm with hm | hm
        · exact hch m hm
        · simp only [List.mem_singleton] at hm
          subst hm
          exact ⟨k1.1, by rw [k1.2]; rfl⟩

/-- The run of `ScrapeSchemaStat.Scrape` behind an open gate over rows that all scan
and whose schema names are valid UTF-8. -/
theorem schemaStat_Scrape_all_rows (c : Consts) (db : DB)
    (varName varVal : GoString) (rows : Rows) (parsed : List (GoString × Nat × Nat × Nat))
    (hdesc : schemaStatDescsOk c)
    (hgate : QueryRowScan db c.userstatCheckQuery scanUserstat = .ok (varName, varVal))
    (hon : varVal ≠ goString "OFF")
    (hquery : db.QueryContext schemaStatQuery = .ok rows)
    (hscan : rows.data.map scanSchemaStat = parsed.map Except.ok)
    (hutf8 : ∀ p ∈ parsed, utf8Valid p.1 = true) :
    ScrapeSchemaStat.Scrape c db =
      ⟨.returned none, parsed.flatMap (schemaStatSamples c),
        [c.userstatCheckQuery, schemaStatQuery]⟩ := by
  have hloop := schemaStat_rowsLoop_append c hdesc parsed rows.data [] [] hscan hutf8
  rw [List.append_nil, schemaStat_rowsLoop_nil] at hloop
  rw [schemaStat_Scrape_open c db varName varVal hgate hon]
  simp only [hquery, hloop, List.nil_append]

/-- A closed gate: the probe is skipped. -/
theorem schemaStat_Scrape_closed (c : Consts) (db : DB) (h : gateOpen c db = false) :
    ScrapeSchemaStat.Scrape c db = ⟨.returned none, [], [c.userstatCheckQuery]⟩ := by
  unfold gateOpen at h
  unfold ScrapeSchemaStat.Scrape
  split
  · rfl
  · rename_i name val heq
    rw [heq] at h
    have hv : val = goString "OFF" := by simpa using h
    simp [hv]

/-- An open gate: the lookup succeeded with a value other than `"OFF"`. -/
theorem gateOpen_iff (c : Consts) (db : DB) :
    gateOpen c db = true ↔
      ∃ varName varVal,
        QueryRowScan db c.userstatCheckQuery scanUserstat = .ok (varName, varVal) ∧
        varVal ≠ goString "OFF" := by
  unfold gateOpen
  constructor
  · intro h
    split at h
    · cases h
    · rename_i name val heq
      exact ⟨name, val, heq, by simpa using h⟩
  · rintro ⟨name, val, heq, hv⟩
    rw [heq]
    simpa using hv

/-- Over rows that all scan, the descriptors, kinds and label values the
schema-statistics loop sends depend on the schema names only, not on the counts. -/
theorem schemaStat_rowsLoop_identity (c : Consts) :
    ∀ (p q : List (GoString × Nat × Nat × Nat)) (rows1 rows2 : List Row)
      (ch1 ch2 : List Metric),
      rows1.map scanSchemaStat = p.map Except.ok →
      rows2.map scanSchemaStat = q.map Except.ok →
      p.map Prod.fst = q.map Prod.fst →
      ch1.map Metric.identity = ch2.map Metric.identity →
      (ScrapeSchemaStat.rowsLoop c rows1 ch1).2.map Metric.identity =
        (ScrapeSchemaStat.rowsLoop c rows2 ch2).2.map Metric.identity := by
  intro p
  induction p with
  | nil =>
    intro q rows1 rows2 ch1 ch2 h1 h2 hpq hch
    have hq : q = [] := by simpa using hpq.symm
    subst hq
    have hr1 : rows1 = [] := by simpa using h1
    have hr2 : rows2 = [] := by simpa using h2
    subst hr1 hr2
    rw [schemaStat_rowsLoop_nil, schemaStat_rowsLoop_nil]
    exact hch
  | cons a p ih =>
    intro q rows1 rows2 ch1 ch2 h1 h2 hpq hch
    cases q with
    | nil => simp at hpq
    | cons b q =>
      cases rows1 with
      | nil => simp at h1
      | cons r1 rows1 =>
        cases rows2 with
        | nil => simp at h2
        | cons r2 rows2 =>
          simp only [List.map_cons, List.cons.injEq] at h1 h2 hpq
          obtain ⟨s, a1, a2, a3⟩ := a
          obtain ⟨t, b1, b2, b3⟩ := b
          have hst : s = t := hpq.1
          subst hst
          rw [ScrapeSchemaStat.rowsLoop, ScrapeSchemaStat.rowsLoop]
          simp only [h1.1, h2.1]
          rcases NewConstMetric_cases (infoSchemaStatsRowsReadDesc c) .CounterValue [s]
            with ⟨e, he⟩ | hk1
          · simp only [he]
            exact hch
          · rcases NewConstMetric_cases (infoSchemaStatsRowsChangedDesc c) .CounterValue [s]
              with ⟨e, he⟩ | hk2
            · simp only [hk1, he]
              simp [hch, Metric.identity]
            · rcases NewConstMetric_cases (infoSchemaStatsRowsChangedXIndexesDesc c)
                .CounterValue [s] with ⟨e, he⟩ | hk3
              · simp only [hk1, hk2, he]
                simp [hch, Metric.identity]
              · simp only [hk1, hk2, hk3]
                apply ih q rows1 rows2 _ _ h1.2 h2.2 hpq.2
                simp [hch, Metric.identity]

theorem schemaStatSamples_length (c : Consts) (p : List (GoString × Nat × Nat × Nat)) :
    (p.flatMap (schemaStatSamples c)).length = 3 * p.length := by
  induction p with
  | nil => rfl
  | cons a p ih =>
    simp only [List.flatMap_cons, List.length_append, ih, List.length_cons]
    simp [schemaStatSamples]
    omega

theorem string_append_left_cancel (a x y : String) (h : a ++ x = a ++ y) : x = y := by
  apply String.ext
  have := congrArg String.data h
  simpa [String.data_append] using this

/-- The name `BuildFQName` gives when no part is empty. -/
theorem BuildFQName_of_ne (ns subsystem name : String)
    (hns : ns ≠ "") (hsub : subsystem ≠ "") (hname : name ≠ "") :
    BuildFQName ns subsystem name = ns ++ "_" ++ subsystem ++ "_" ++ name := by
  unfold BuildFQName
  rw [if_neg hname, if_pos ⟨hns, hsub⟩]
  rfl

/-- Below `2 ^ 53` the conversion to `float64` keeps the value. -/
theorem float64_of_lt (n : Nat) (h : n < 2 ^ 53) : float64 n = n := by
  unfold float64
  rw [if_pos h]

/-- Every error is the outcome of some scan of a statistics row and of some scan of
a request-rate row: the iterator closed under the row with that error. -/
theorem scan_error_any (e : Err) (cols : List Value) :
    scanSchemaStat ⟨cols, some e⟩ = .error e ∧ scanGlobalStatus ⟨cols, some e⟩ = .error e :=
  ⟨rfl, rfl⟩

/-! ## Claims -/

/-- C1, as stated, fails: behind an open gate, the two rows `("app", 100, 5, 7)` and
`(<FF FE>, 1, 2, 3)` both scan, yet `ScrapeSchemaStat.Scrape` does not return nil
with six samples: `MustNewConstMetric` panics on the second schema name, which is
not valid UTF-8, after the three samples of the first row. -/
theorem C1_invalid_utf8_schema_panics :
    QueryRowScan (exampleDB (userstatIs "ON") (.ok ⟨invalidSchemaRows, none, none⟩)
        (.error .canceled)) exampleConsts.userstatCheckQuery scanUserstat =
      .ok (goString "userstat", goString "ON") ∧
    invalidSchemaRows.map scanSchemaStat =
      [(goString "app", 100, 5, 7), ([0xFF, 0xFE], 1, 2, 3)].map Except.ok ∧
    (ScrapeSchemaStat.Scrape exampleConsts
      (exampleDB (userstatIs "ON") (.ok ⟨invalidSchemaRows, none, none⟩)
        (.error .canceled))).outcome = .panicked (.invalidUTF8 [0xFF, 0xFE]) ∧
    (ScrapeSchemaStat.Scrape exampleConsts
      (exampleDB (userstatIs "ON") (.ok ⟨invalidSchemaRows, none, none⟩)
        (.error .canceled))).sent.length = 3 :=
  ⟨rfl, rfl, rfl, rfl⟩

/-- C1, amended: with the userstat gate enabled and a statistics query whose `n`
rows all scan and carry schema names that are valid UTF-8, `ScrapeSchemaStat.Scrape`
returns nil and the samples sent are, in the order of the rows, the three counter
samples of each row (rows read, rows changed, rows changed times indexes, each with
the value converted to `float64` and the single label value `[schema]`): `3 * n`
samples and nothing else. -/
theorem C1_schemastat_three_samples_per_row (c : Consts) (db : DB)
    (varName varVal : GoString) (rows : Rows) (parsed : List (GoString × Nat × Nat × Nat))
    (hdesc : schemaStatDescsOk c)
    (hgate : QueryRowScan db c.userstatCheckQuery scanUserstat = .ok (varName, varVal))
    (hon : varVal ≠ goString "OFF")
    (hquery : db.QueryContext schemaStatQuery = .ok rows)
    (hscan : rows.data.map scanSchemaStat = parsed.map Except.ok)
    (hutf8 : ∀ p ∈ parsed, utf8Valid p.1 = true) :
    (ScrapeSchemaStat.Scrape c db).outcome = .returned none ∧
    (ScrapeSchemaStat.Scrape c db).sent =
      parsed.flatMap (fun p =>
        [⟨infoSchemaStatsRowsReadDesc c, .CounterValue, float64 p.2.1, [p.1]⟩,
         ⟨infoSchemaStatsRowsChangedDesc c, .CounterValue, float64 p.2.2.1, [p.1]⟩,
         ⟨infoSchemaStatsRowsChangedXIndexesDesc c, .CounterValue, float64 p.2.2.2, [p.1]⟩]) ∧
    (ScrapeSchemaStat.Scrape c db).sent.length = 3 * rows.data.length := by
  have hlen : rows.data.length = parsed.length := by
    have := congrArg List.length hscan
    simpa using this
  rw [schemaStat_Scrape_all_rows c db varName varVal rows parsed hdesc hgate hon hquery
    hscan hutf8]
  refine ⟨rfl, rfl, ?_⟩
  show (parsed.flatMap (schemaStatSamples c)).length = 3 * rows.data.length
  rw [hlen, schemaStatSamples_length]

/-- C1, amended, at the rows `("app", 100, 5, 7)`, `("sys", 3, 0, 2)`. -/
theorem C1_schemastat_three_samples_per_row_witness :
    (ScrapeSchemaStat.Scrape exampleConsts
      (exampleDB (userstatIs "ON") (.ok ⟨appSysRows, none, none⟩)
        (.error (.driver "")))).outcome = .returned none ∧
    (ScrapeSchemaStat.Scrape exampleConsts
      (exampleDB (userstatIs "ON") (.ok ⟨appSysRows, none, none⟩)
        (.error (.driver "")))).sent =
      [⟨infoSchemaStatsRowsReadDesc exampleConsts, .CounterValue, 100, [goString "app"]⟩,
       ⟨infoSchemaStatsRowsChangedDesc exampleConsts, .CounterValue, 5, [goString "app"]⟩,
       ⟨infoSchemaStatsRowsChangedXIndexesDesc exampleConsts, .CounterValue, 7,
         [goString "app"]⟩,
       ⟨infoSchemaStatsRowsReadDesc exampleConsts, .CounterValue, 3, [goString "sys"]⟩,
       ⟨infoSchemaStatsRowsChangedDesc exampleConsts, .CounterValue, 0, [goString "sys"]⟩,
       ⟨infoSchemaStatsRowsChangedXIndexesDesc exampleConsts, .CounterValue, 2,
         [goString "sys"]⟩] ∧
    (ScrapeSchemaStat.Scrape exampleConsts
      (exampleDB (userstatIs "ON") (.ok ⟨appSysRows, none, none⟩)
        (.error (.driver "")))).sent.length = 3 * 2 :=
  C1_schemastat_three_samples_per_row exampleConsts
    (exampleDB (userstatIs "ON") (.ok ⟨appSysRows, none, none⟩) (.error (.driver "")))
    (goString "userstat") (goString "ON") ⟨appSysRows, none, none⟩
    [(goString "app", 100, 5, 7), (goString "sys", 3, 0, 2)]
    ⟨rfl, rfl, rfl⟩ rfl (by decide) rfl rfl (by decide)

/-- C2: when the userstat read fails, or succeeds with the value `"OFF"`,
`ScrapeSchemaStat.Scrape` returns nil, sends no sample, and the userstat lookup
is the only query it hands to the database. -/
theorem C2_schemastat_gate_skips (c : Consts) (db : DB)
    (h : (∃ e, QueryRowScan db c.userstatCheckQuery scanUserstat = .error e) ∨
         (∃ varName, QueryRowScan db c.userstatCheckQuery scanUserstat =
            .ok (varName, goString "OFF"))) :
    (ScrapeSchemaStat.Scrape c db).outcome = .returned none ∧
    (ScrapeSchemaStat.Scrape c db).sent = [] ∧
    (ScrapeSchemaStat.Scrape c db).queries = [c.userstatCheckQuery] := by
  unfold ScrapeSchemaStat.Scrape
  rcases h with ⟨e, he⟩ | ⟨varName, hv⟩
  · simp [he]
  · simp [hv]

/-- C2 at a lookup that fails with a cancelled context, and at a lookup that
answers `"OFF"` in front of a statistics table that has rows. -/
theorem C2_schemastat_gate_skips_witness :
    ((ScrapeSchemaStat.Scrape exampleConsts
        (exampleDB (.error .canceled) (.ok ⟨appSysRows, none, none⟩)
          (.error (.driver "")))).outcome = .returned none ∧
     (ScrapeSchemaStat.Scrape exampleConsts
        (exampleDB (.error .canceled) (.ok ⟨appSysRows, none, none⟩)
          (.error (.driver "")))).sent = [] ∧
     (ScrapeSchemaStat.Scrape exampleConsts
        (exampleDB (.error .canceled) (.ok ⟨appSysRows, none, none⟩)
          (.error (.driver "")))).queries = [exampleConsts.userstatCheckQuery]) ∧
    ((ScrapeSchemaStat.Scrape exampleConsts
        (exampleDB (userstatIs "OFF") (.ok ⟨appSysRows, none, none⟩)
          (.error (.driver "")))).outcome = .returned none ∧
     (ScrapeSchemaStat.Scrape exampleConsts
        (exampleDB (userstatIs "OFF") (.ok ⟨appSysRows, none, none⟩)
          (.error (.driver "")))).sent = [] ∧
     (ScrapeSchemaStat.Scrape exampleConsts
        (exampleDB (userstatIs "OFF") (.ok ⟨appSysRows, none, none⟩)
          (.error (.driver "")))).queries = [exampleConsts.userstatCheckQuery]) :=
  ⟨C2_schemastat_gate_skips exampleConsts _ (Or.inl ⟨.canceled, rfl⟩),
   C2_schemastat_gate_skips exampleConsts _ (Or.inr ⟨goString "userstat", rfl⟩)⟩

/-- C3, as stated, fails: behind an open gate, the row `(<FF FE>, 1, 2, 3)` scans
and the scan of the next row fails with `e`, yet `ScrapeSchemaStat.Scrape` does not
return `e` after the three samples of the first row: `MustNewConstMetric` panics on
the schema name of the first row, which is not valid UTF-8, and nothing is sent. -/
theorem C3_invalid_utf8_prefix_panics :
    QueryRowScan (exampleDB (userstatIs "ON") (.ok ⟨invalidThenBadRows, none, none⟩)
        (.error .canceled)) exampleConsts.userstatCheckQuery scanUserstat =
      .ok (goString "userstat", goString "ON") ∧
    invalidThenBadRows.map scanSchemaStat =
      [.ok ([0xFF, 0xFE], 1, 2, 3),
       .error (.scanColumn 1 "converting NULL to uint64 is unsupported")] ∧
    (ScrapeSchemaStat.Scrape exampleConsts
      (exampleDB (userstatIs "ON") (.ok ⟨invalidThenBadRows, none, none⟩)
        (.error .canceled))).outcome = .panicked (.invalidUTF8 [0xFF, 0xFE]) ∧
    (ScrapeSchemaStat.Scrape exampleConsts
      (exampleDB (userstatIs "ON") (.ok ⟨invalidThenBadRows, none, none⟩)
        (.error .canceled))).sent = [] :=
  ⟨rfl, rfl, rfl, rfl⟩

/-- C3, amended: for both probes, when the main query fails with `e`, `Scrape`
returns `e` and has sent nothing; when the first `k` rows scan (for the
schema-statistics probe: with schema names that are valid UTF-8) and the scan of the
next row fails with `e`, `Scrape` returns `e` having sent exactly the samples of
those `k` rows, none for the failing row and none for a later one. -/
theorem C3_query_or_scan_error_aborts (c : Consts) (db : DB) (e : Err) :
    (∀ (varName varVal : GoString),
      QueryRowScan db c.userstatCheckQuery scanUserstat = .ok (varName, varVal) →
      varVal ≠ goString "OFF" →
      (db.QueryContext schemaStatQuery = .error e →
        (ScrapeSchemaStat.Scrape c db).outcome = .returned (some e) ∧
        (ScrapeSchemaStat.Scrape c db).sent = []) ∧
      (∀ (rows : Rows) (pre : List Row) (bad : Row) (post : List Row)
          (parsed : List (GoString × Nat × Nat × Nat)),
        schemaStatDescsOk c →
        db.QueryContext schemaStatQuery = .ok rows →
        rows.data = pre ++ bad :: post →
        pre.map scanSchemaStat = parsed.map Except.ok →
        (∀ p ∈ parsed, utf8Valid p.1 = true) →
        scanSchemaStat bad = .error e →
        (ScrapeSchemaStat.Scrape c db).outcome = .returned (some e) ∧
        (ScrapeSchemaStat.Scrape c db).sent = parsed.flatMap (schemaStatSamples c))) ∧
    (db.QueryContext globalStatusRequestRatesQuery = .error e →
      (ScrapeGlobalStatusRequestRatesSum.Scrape c db).outcome = .returned (some e) ∧
      (ScrapeGlobalStatusRequestRatesSum.Scrape c db).sent = []) ∧
    (∀ (rows : Rows) (pre : List Row) (bad : Row) (post : List Row) (parsed : List Nat),
      (informationSchemaGlobalStatusRequestSumTotalDesc c).err = none →
      db.QueryContext globalStatusRequestRatesQuery = .ok rows →
      rows.data = pre ++ bad :: post →
      pre.map scanGlobalStatus = parsed.map Except.ok →
      scanGlobalStatus bad = .error e →
      (ScrapeGlobalStatusRequestRatesSum.Scrape c db).outcome = .returned (some e) ∧
      (ScrapeGlobalStatusRequestRatesSum.Scrape c db).sent =
        parsed.map (globalStatusSample c)) := by
  refine ⟨?_, ?_, ?_⟩
  · intro varName varVal hgate hon
    rw [schemaStat_Scrape_open c db varName varVal hgate hon]
    refine ⟨?_, ?_⟩
    · intro hq
      simp [hq]
    · intro rows pre bad post parsed hd hq hrows hpre hutf8 hbad
      have hloop := schemaStat_rowsLoop_append c hd parsed pre (bad :: post) [] hpre hutf8
      rw [schemaStat_rowsLoop_bad c bad post _ e hbad, ← hrows] at hloop
      simp [hq, hloop]
  · intro hq
    unfold ScrapeGlobalStatusRequestRatesSum.Scrape
    simp [hq]
  · intro rows pre bad post parsed hd hq hrows hpre hbad
    have hloop := globalStatus_rowsLoop_append c hd parsed pre (bad :: post) [] hpre
    rw [globalStatus_rowsLoop_bad c bad post _ e hbad, ← hrows] at hloop
    unfold ScrapeGlobalStatusRequestRatesSum.Scrape
    simp [hq, hloop]

/-- C3, amended, at a failing statistics query; at the row `("app", 100, 5, 7)`
followed by a row whose `ROWS_READ` is NULL and by the row `("sys", 3, 0, 2)`; at the
row `("app", 100, 5, 7)` followed by a row under which a cancelled context closed the
iterator; at a failing request-rate query; and at a row of twenty-one columns
followed by one whose first column is NULL and by a third. -/
theorem C3_query_or_scan_error_aborts_witness :
    ((ScrapeSchemaStat.Scrape exampleConsts failingQueriesDB).outcome =
        .returned (some (.driver "no such table")) ∧
      (ScrapeSchemaStat.Scrape exampleConsts failingQueriesDB).sent = []) ∧
    ((ScrapeSchemaStat.Scrape exampleConsts badRowDB).outcome =
        .returned (some (.scanColumn 1 "converting NULL to uint64 is unsupported")) ∧
      (ScrapeSchemaStat.Scrape exampleConsts badRowDB).sent =
        [⟨infoSchemaStatsRowsReadDesc exampleConsts, .CounterValue, 100, [goString "app"]⟩,
         ⟨infoSchemaStatsRowsChangedDesc exampleConsts, .CounterValue, 5, [goString "app"]⟩,
         ⟨infoSchemaStatsRowsChangedXIndexesDesc exampleConsts, .CounterValue, 7,
           [goString "app"]⟩]) ∧
    ((ScrapeSchemaStat.Scrape exampleConsts closedUnderScanDB).outcome =
        .returned (some .canceled) ∧
      (ScrapeSchemaStat.Scrape exampleConsts closedUnderScanDB).sent =
        [⟨infoSchemaStatsRowsReadDesc exampleConsts, .CounterValue, 100, [goString "app"]⟩,
         ⟨infoSchemaStatsRowsChangedDesc exampleConsts, .CounterValue, 5, [goString "app"]⟩,
         ⟨infoSchemaStatsRowsChangedXIndexesDesc exampleConsts, .CounterValue, 7,
           [goString "app"]⟩]) ∧
    ((ScrapeGlobalStatusRequestRatesSum.Scrape exampleConsts failingQueriesDB).outcome =
        .returned (some .deadlineExceeded) ∧
      (ScrapeGlobalStatusRequestRatesSum.Scrape exampleConsts failingQueriesDB).sent = []) ∧
    ((ScrapeGlobalStatusRequestRatesSum.Scrape exampleConsts badRowDB).outcome =
        .returned (some (.scanColumn 0 "converting NULL to uint64 is unsupported")) ∧
      (ScrapeGlobalStatusRequestRatesSum.Scrape exampleConsts badRowDB).sent =
        [⟨informationSchemaGlobalStatusRequestSumTotalDesc exampleConsts, .CounterValue, 5,
          []⟩]) :=
  ⟨((C3_query_or_scan_error_aborts exampleConsts failingQueriesDB
      (.driver "no such table")).1
      (goString "userstat") (goString "ON") rfl (by decide)).1 rfl,
   ((C3_query_or_scan_error_aborts exampleConsts badRowDB
      (.scanColumn 1 "converting NULL to uint64 is unsupported")).1
      (goString "userstat") (goString "ON") rfl (by decide)).2 _
      [statRow (goString "app") "100" "5" "7"]
      ⟨[text "tmp", .null, text "1", text "1"], none⟩
      [statRow (goString "sys") "3" "0" "2"]
      [(goString "app", 100, 5, 7)] ⟨rfl, rfl, rfl⟩ rfl rfl rfl (by decide) rfl,
   ((C3_query_or_scan_error_aborts exampleConsts closedUnderScanDB .canceled).1
      (goString "userstat") (goString "ON") rfl (by decide)).2 _
      [statRow (goString "app") "100" "5" "7"]
      ⟨[text "sys", text "3", text "0", text "2"], some .canceled⟩
      []
      [(goString "app", 100, 5, 7)] ⟨rfl, rfl, rfl⟩ rfl rfl rfl (by decide) rfl,
   (C3_query_or_scan_error_aborts exampleConsts failingQueriesDB .deadlineExceeded).2.1 rfl,
   (C3_query_or_scan_error_aborts exampleConsts badRowDB
      (.scanColumn 0 "converting NULL to uint64 is unsupported")).2.2 _
      [wideRow (.int64 5)] (wideRow .null) [wideRow (.int64 9)] [5] rfl rfl rfl rfl rfl⟩

/-- C4, as stated, fails: when the context is cancelled during the userstat
lookup, `ScrapeSchemaStat.Scrape` returns nil; when a row iterator stops after one
row with the error of the cancelled context, both probes return nil after sending
that row. -/
theorem C4_cancellation_can_return_nil :
    (ScrapeSchemaStat.Scrape exampleConsts cancelledGateDB).outcome = .returned none ∧
    (ScrapeSchemaStat.Scrape exampleConsts cancelledIterationDB).outcome = .returned none ∧
    (ScrapeSchemaStat.Scrape exampleConsts cancelledIterationDB).sent.length = 3 ∧
    (ScrapeGlobalStatusRequestRatesSum.Scrape exampleConsts cancelledIterationDB).outcome =
      .returned none ∧
    (ScrapeGlobalStatusRequestRatesSum.Scrape exampleConsts cancelledIterationDB).sent.length
      = 1 :=
  ⟨rfl, rfl, rfl, rfl, rfl⟩

/-- C4, amended: for both probes, when the execution of the main query fails with
`e` (the error of a cancelled context in particular), `Scrape` returns `e`, which is
not nil, and has sent nothing; when the userstat lookup fails with `e`,
`ScrapeSchemaStat.Scrape` skips the probe and returns nil. -/
theorem C4_cancelled_main_query_is_returned (c : Consts) (db : DB) (e : Err) :
    (∀ (varName varVal : GoString),
      QueryRowScan db c.userstatCheckQuery scanUserstat = .ok (varName, varVal) →
      varVal ≠ goString "OFF" →
      db.QueryContext schemaStatQuery = .error e →
      (ScrapeSchemaStat.Scrape c db).outcome = .returned (some e) ∧
      (ScrapeSchemaStat.Scrape c db).outcome ≠ .returned none ∧
      (ScrapeSchemaStat.Scrape c db).sent = []) ∧
    (db.QueryContext globalStatusRequestRatesQuery = .error e →
      (ScrapeGlobalStatusRequestRatesSum.Scrape c db).outcome = .returned (some e) ∧
      (ScrapeGlobalStatusRequestRatesSum.Scrape c db).outcome ≠ .returned none ∧
      (ScrapeGlobalStatusRequestRatesSum.Scrape c db).sent = []) ∧
    (QueryRowScan db c.userstatCheckQuery scanUserstat = .error e →
      (ScrapeSchemaStat.Scrape c db).outcome = .returned none ∧
      (ScrapeSchemaStat.Scrape c db).sent = []) := by
  refine ⟨?_, ?_, ?_⟩
  · intro varName varVal hgate hon hq
    rw [schemaStat_Scrape_open c db varName varVal hgate hon]
    simp [hq]
  · intro hq
    unfold ScrapeGlobalStatusRequestRatesSum.Scrape
    simp [hq]
  · intro hgate
    unfold ScrapeSchemaStat.Scrape
    simp [hgate]

/-- C4, amended, at main queries and at a userstat lookup cut off by a cancelled
context. -/
theorem C4_cancelled_main_query_is_returned_witness :
    ((ScrapeSchemaStat.Scrape exampleConsts cancelledQueryDB).outcome =
        .returned (some .canceled) ∧
      (ScrapeSchemaStat.Scrape exampleConsts cancelledQueryDB).outcome ≠ .returned none ∧
      (ScrapeSchemaStat.Scrape exampleConsts cancelledQueryDB).sent = []) ∧
    ((ScrapeGlobalStatusRequestRatesSum.Scrape exampleConsts cancelledQueryDB).outcome =
        .returned (some .canceled) ∧
      (ScrapeGlobalStatusRequestRatesSum.Scrape exampleConsts cancelledQueryDB).outcome ≠
        .returned none ∧
      (ScrapeGlobalStatusRequestRatesSum.Scrape exampleConsts cancelledQueryDB).sent = []) ∧
    ((ScrapeSchemaStat.Scrape exampleConsts cancelledGateDB).outcome = .returned none ∧
      (ScrapeSchemaStat.Scrape exampleConsts cancelledGateDB).sent = []) :=
  ⟨(C4_cancelled_main_query_is_returned exampleConsts cancelledQueryDB .canceled).1
      (goString "userstat") (goString "ON") rfl (by decide) rfl,
   (C4_cancelled_main_query_is_returned exampleConsts cancelledQueryDB .canceled).2.1 rfl,
   (C4_cancelled_main_query_is_returned exampleConsts cancelledGateDB .canceled).2.2 rfl⟩

/-- C5, on the code: whatever the single column of the one row of the request-rate
query holds, the scan into twenty-one destinations fails (with the count mismatch,
or with the error that closed the iterator under the row), so
`ScrapeGlobalStatusRequestRatesSum.Scrape` returns that error and sends no sample. -/
theorem C5_single_column_row_is_rejected (c : Consts) (v : Value)
    (scanErr err closeErr : Option Err) :
    (ScrapeGlobalStatusRequestRatesSum.Scrape c
      ⟨fun _ => .ok ⟨[⟨[v], scanErr⟩], err, closeErr⟩⟩).outcome =
        .returned (some (scanErr.getD (.scanArgs 1 21))) ∧
    (ScrapeGlobalStatusRequestRatesSum.Scrape c
      ⟨fun _ => .ok ⟨[⟨[v], scanErr⟩], err, closeErr⟩⟩).sent = [] := by
  cases scanErr <;> exact ⟨rfl, rfl⟩

/-- C6: every sample either probe sends has as many label values as its
descriptor has label names (one for the schema-statistics descriptors, none for the
global-status descriptor), and no run of either probe ends in the panic of a
label-count mismatch. -/
theorem C6_label_count_matches_descriptor (c : Consts) (db : DB) :
    (∀ m ∈ (ScrapeSchemaStat.Scrape c db).sent,
      m.labelValues.length = m.desc.variableLabels.length ∧ m.labelValues.length = 1) ∧
    (ScrapeSchemaStat.Scrape c db).outcome ≠ .panicked .inconsistentCardinality ∧
    (∀ m ∈ (ScrapeGlobalStatusRequestRatesSum.Scrape c db).sent,
      m.labelValues.length = m.desc.variableLabels.length ∧ m.labelValues.length = 0) ∧
    (ScrapeGlobalStatusRequestRatesSum.Scrape c db).outcome ≠
      .panicked .inconsistentCardinality := by
  have hs : (∀ m ∈ (ScrapeSchemaStat.Scrape c db).sent,
      m.labelValues.length = m.desc.variableLabels.length ∧ m.labelValues.length = 1) ∧
      (ScrapeSchemaStat.Scrape c db).outcome ≠ .panicked .inconsistentCardinality := by
    unfold ScrapeSchemaStat.Scrape
    split
    · simp
    · split_ifs
      · simp
      · split
        · simp
        · exact schemaStat_rowsLoop_cardinality c _ [] (by simp)
  have hg : (∀ m ∈ (ScrapeGlobalStatusRequestRatesSum.Scrape c db).sent,
      m.labelValues.length = m.desc.variableLabels.length ∧ m.labelValues.length = 0) ∧
      (ScrapeGlobalStatusRequestRatesSum.Scrape c db).outcome ≠
        .panicked .inconsistentCardinality := by
    unfold ScrapeGlobalStatusRequestRatesSum.Scrape
    split
    · simp
    · exact globalStatus_rowsLoop_cardinality c _ [] (by simp)
  exact ⟨hs.1, hs.2, hg.1, hg.2⟩

/-- C7, as stated, fails: two runs behind the same open gate, over results whose
rows carry the same schema names `"app"`, `"sys"` and differ in a numeric column
only (in the second run the `ROWS_READ` of `"sys"` is NULL), send six samples and
three samples. -/
theorem C7_same_schemas_different_sample_count :
    gateOpen exampleConsts
        (exampleDB (userstatIs "ON") (.ok ⟨appSysRows, none, none⟩) (.error .canceled)) =
      gateOpen exampleConsts
        (exampleDB (userstatIs "ON") (.ok ⟨appSysNullRows, none, none⟩) (.error .canceled)) ∧
    appSysRows.map (fun row => row.cols.head?) =
      appSysNullRows.map (fun row => row.cols.head?) ∧
    (ScrapeSchemaStat.Scrape exampleConsts
      (exampleDB (userstatIs "ON") (.ok ⟨appSysRows, none, none⟩)
        (.error .canceled))).sent.length = 6 ∧
    (ScrapeSchemaStat.Scrape exampleConsts
      (exampleDB (userstatIs "ON") (.ok ⟨appSysNullRows, none, none⟩)
        (.error .canceled))).sent.length = 3 :=
  ⟨rfl, rfl, rfl, rfl⟩

/-- C7, amended: two runs of `ScrapeSchemaStat.Scrape` with the same gate outcome,
over results whose rows all scan and carry the same schema names in the same order,
send equally many samples, and the samples at each position have the same
descriptor, the same kind and the same ordered label values: they differ at most in
the numeric value. -/
theorem C7_sample_identity_is_stable (c : Consts) (db1 db2 : DB) (rows1 rows2 : Rows)
    (parsed1 parsed2 : List (GoString × Nat × Nat × Nat))
    (hgate : gateOpen c db1 = gateOpen c db2)
    (hquery1 : db1.QueryContext schemaStatQuery = .ok rows1)
    (hquery2 : db2.QueryContext schemaStatQuery = .ok rows2)
    (hscan1 : rows1.data.map scanSchemaStat = parsed1.map Except.ok)
    (hscan2 : rows2.data.map scanSchemaStat = parsed2.map Except.ok)
    (hschemas : parsed1.map Prod.fst = parsed2.map Prod.fst) :
    (ScrapeSchemaStat.Scrape c db1).sent.length =
      (ScrapeSchemaStat.Scrape c db2).sent.length ∧
    (ScrapeSchemaStat.Scrape c db1).sent.map (fun m => (m.desc, m.valType, m.labelValues)) =
      (ScrapeSchemaStat.Scrape c db2).sent.map (fun m => (m.desc, m.valType, m.labelValues)) := by
  have key : (ScrapeSchemaStat.Scrape c db1).sent.map Metric.identity =
      (ScrapeSchemaStat.Scrape c db2).sent.map Metric.identity := by
    cases h1 : gateOpen c db1 with
    | false =>
      rw [schemaStat_Scrape_closed c db1 h1, schemaStat_Scrape_closed c db2 (hgate ▸ h1)]
    | true =>
      obtain ⟨n1, v1, hg1, hv1⟩ := (gateOpen_iff c db1).mp h1
      obtain ⟨n2, v2, hg2, hv2⟩ := (gateOpen_iff c db2).mp (hgate ▸ h1)
      rw [schemaStat_Scrape_open c db1 n1 v1 hg1 hv1,
        schemaStat_Scrape_open c db2 n2 v2 hg2 hv2]
      simp only [hquery1, hquery2]
      exact schemaStat_rowsLoop_identity c parsed1 parsed2 rows1.data rows2.data [] []
        hscan1 hscan2 hschemas rfl
  refine ⟨?_, key⟩
  have := congrArg List.length key
  simpa using this

/-- C7, amended, at the schemas `"app"`, `"sys"` with two different sets of counts,
and at the schemas `"app"`, `<FF FE>` twice. -/
theorem C7_sample_identity_is_stable_witness :
    ((ScrapeSchemaStat.Scrape exampleConsts
        (exampleDB (userstatIs "ON") (.ok ⟨appSysRows, none, none⟩)
          (.error .canceled))).sent.length =
      (ScrapeSchemaStat.Scrape exampleConsts
        (exampleDB (userstatIs "1") (.ok ⟨appSysRowsLater, none, none⟩)
          (.error .canceled))).sent.length ∧
    (ScrapeSchemaStat.Scrape exampleConsts
        (exampleDB (userstatIs "ON") (.ok ⟨appSysRows, none, none⟩)
          (.error .canceled))).sent.map (fun m => (m.desc, m.valType, m.labelValues)) =
      (ScrapeSchemaStat.Scrape exampleConsts
        (exampleDB (userstatIs "1") (.ok ⟨appSysRowsLater, none, none⟩)
          (.error .canceled))).sent.map (fun m => (m.desc, m.valType, m.labelValues))) ∧
    (ScrapeSchemaStat.Scrape exampleConsts
        (exampleDB (userstatIs "ON") (.ok ⟨invalidSchemaRows, none, none⟩)
          (.error .canceled))).sent.length =
      (ScrapeSchemaStat.Scrape exampleConsts
        (exampleDB (userstatIs "1") (.ok ⟨invalidSchemaRows, none, none⟩)
          (.error .canceled))).sent.length :=
  ⟨C7_sample_identity_is_stable exampleConsts
    (exampleDB (userstatIs "ON") (.ok ⟨appSysRows, none, none⟩) (.error .canceled))
    (exampleDB (userstatIs "1") (.ok ⟨appSysRowsLater, none, none⟩) (.error .canceled))
    ⟨appSysRows, none, none⟩ ⟨appSysRowsLater, none, none⟩
    [(goString "app", 100, 5, 7), (goString "sys", 3, 0, 2)]
    [(goString "app", 250, 9, 11), (goString "sys", 3, 1, 2)]
    rfl rfl rfl rfl rfl rfl,
   (C7_sample_identity_is_stable exampleConsts
    (exampleDB (userstatIs "ON") (.ok ⟨invalidSchemaRows, none, none⟩) (.error .canceled))
    (exampleDB (userstatIs "1") (.ok ⟨invalidSchemaRows, none, none⟩) (.error .canceled))
    ⟨invalidSchemaRows, none, none⟩ ⟨invalidSchemaRows, none, none⟩
    [(goString "app", 100, 5, 7), ([0xFF, 0xFE], 1, 2, 3)]
    [(goString "app", 100, 5, 7), ([0xFF, 0xFE], 1, 2, 3)]
    rfl rfl rfl rfl rfl rfl).1⟩

/-- C8: with a non-empty namespace and a non-empty subsystem, the fully-qualified
name of each of the four descriptors is the namespace, `_`, the subsystem, `_` and
the short name; the four names are pairwise distinct; and every label name the
descriptors declare is a lower-case identifier. -/
theorem C8_fully_qualified_names (c : Consts)
    (hns : c.namespace_ ≠ "") (hsub : c.informationSchema ≠ "") :
    (infoSchemaStatsRowsReadDesc c).fqName =
      c.namespace_ ++ "_" ++ c.informationSchema ++ "_" ++
        "schema_statistics_rows_read_total" ∧
    (infoSchemaStatsRowsChangedDesc c).fqName =
      c.namespace_ ++ "_" ++ c.informationSchema ++ "_" ++
        "schema_statistics_rows_changed_total" ∧
    (infoSchemaStatsRowsChangedXIndexesDesc c).fqName =
      c.namespace_ ++ "_" ++ c.informationSchema ++ "_" ++
        "schema_statistics_rows_changed_x_indexes_total" ∧
    (informationSchemaGlobalStatusRequestSumTotalDesc c).fqName =
      c.namespace_ ++ "_" ++ c.informationSchema ++ "_" ++ "global_status_request_rate" ∧
    [(infoSchemaStatsRowsReadDesc c).fqName, (infoSchemaStatsRowsChangedDesc c).fqName,
      (infoSchemaStatsRowsChangedXIndexesDesc c).fqName,
      (informationSchemaGlobalStatusRequestSumTotalDesc c).fqName].Nodup ∧
    (∀ d ∈ [infoSchemaStatsRowsReadDesc c, infoSchemaStatsRowsChangedDesc c,
        infoSchemaStatsRowsChangedXIndexesDesc c,
        informationSchemaGlobalStatusRequestSumTotalDesc c],
      ∀ l ∈ d.variableLabels, isLowerCaseIdentifier l = true) := by
  have e1 : (infoSchemaStatsRowsReadDesc c).fqName =
      c.namespace_ ++ "_" ++ c.informationSchema ++ "_" ++
        "schema_statistics_rows_read_total" := by
    rw [infoSchemaStatsRowsReadDesc, NewDesc_fqName,
      BuildFQName_of_ne _ _ _ hns hsub (by decide)]
  have e2 : (infoSchemaStatsRowsChangedDesc c).fqName =
      c.namespace_ ++ "_" ++ c.informationSchema ++ "_" ++
        "schema_statistics_rows_changed_total" := by
    rw [infoSchemaStatsRowsChangedDesc, NewDesc_fqName,
      BuildFQName_of_ne _ _ _ hns hsub (by decide)]
  have e3 : (infoSchemaStatsRowsChangedXIndexesDesc c).fqName =
      c.namespace_ ++ "_" ++ c.informationSchema ++ "_" ++
        "schema_statistics_rows_changed_x_indexes_total" := by
    rw [infoSchemaStatsRowsChangedXIndexesDesc, NewDesc_fqName,
      BuildFQName_of_ne _ _ _ hns hsub (by decide)]
  have e4 : (informationSchemaGlobalStatusRequestSumTotalDesc c).fqName =
      c.namespace_ ++ "_" ++ c.informationSchema ++ "_" ++ "global_status_request_rate" := by
    rw [informationSchemaGlobalStatusRequestSumTotalDesc, NewDesc_fqName,
      BuildFQName_of_ne _ _ _ hns hsub (by decide)]
  refine ⟨e1, e2, e3, e4, ?_, ?_⟩
  · rw [e1, e2, e3, e4]
    have ne : ∀ x y : String, x ≠ y →
        c.namespace_ ++ "_" ++ c.informationSchema ++ "_" ++ x ≠
          c.namespace_ ++ "_" ++ c.informationSchema ++ "_" ++ y :=
      fun x y hxy h => hxy (string_append_left_cancel _ x y h)
    simp only [List.nodup_cons, List.mem_cons, List.mem_singleton, List.not_mem_nil,
      or_false, not_or, List.nodup_nil, and_true, not_false_eq_true]
    exact ⟨⟨ne _ _ (by decide), ne _ _ (by decide), ne _ _ (by decide)⟩,
      ⟨ne _ _ (by decide), ne _ _ (by decide)⟩, ne _ _ (by decide)⟩
  · intro d hd l hl
    simp only [List.mem_cons, List.mem_singleton, List.not_mem_nil, or_false] at hd
    rcases hd with hd | hd | hd | hd <;> subst hd
    · rw [infoSchemaStatsRowsReadDesc, NewDesc_variableLabels, List.mem_singleton] at hl
      subst hl
      rfl
    · rw [infoSchemaStatsRowsChangedDesc, NewDesc_variableLabels, List.mem_singleton] at hl
      subst hl
      rfl
    · rw [infoSchemaStatsRowsChangedXIndexesDesc, NewDesc_variableLabels,
        List.mem_singleton] at hl
      subst hl
      rfl
    · rw [informationSchemaGlobalStatusRequestSumTotalDesc, NewDesc_variableLabels] at hl
      cases hl

/-- C8 at the namespace `mysql` and the subsystem `info_schema`. -/
theorem C8_fully_qualified_names_witness :
    (infoSchemaStatsRowsReadDesc exampleConsts).fqName =
      "mysql_info_schema_schema_statistics_rows_read_total" ∧
    (informationSchemaGlobalStatusRequestSumTotalDesc exampleConsts).fqName =
      "mysql_info_schema_global_status_request_rate" :=
  ⟨(C8_fully_qualified_names exampleConsts (by decide) (by decide)).1,
   (C8_fully_qualified_names exampleConsts (by decide) (by decide)).2.2.2.1⟩

/-- C9, as stated, fails: behind an open gate, the two rows of three columns
`("app", 100, 5)` and `("sys", 3, 0)` make the scan into four destinations fail, so
no sample is sent; and the same two rows with the fourth column the statistics query
projects give six samples. In neither case are there four. -/
theorem C9_two_rows_do_not_give_four_samples :
    (ScrapeSchemaStat.Scrape exampleConsts
      (exampleDB (userstatIs "ON") (.ok ⟨appSysNarrowRows, none, none⟩)
        (.error .canceled))).outcome = .returned (some (.scanArgs 3 4)) ∧
    (ScrapeSchemaStat.Scrape exampleConsts
      (exampleDB (userstatIs "ON") (.ok ⟨appSysNarrowRows, none, none⟩)
        (.error .canceled))).sent.length = 0 ∧
    (ScrapeSchemaStat.Scrape exampleConsts
      (exampleDB (userstatIs "ON") (.ok ⟨appSysRows, none, none⟩)
        (.error .canceled))).sent.length = 6 :=
  ⟨rfl, rfl, rfl⟩

/-- C9, amended: behind an open gate, when the statistics query returns exactly the
rows `("app", 100, 5, x)` and `("sys", 3, 0, y)`, the probe returns nil and sends
exactly six samples, three descriptors times two label values, the three samples of
`"app"` before the three of `"sys"`; so within each descriptor `"app"` comes before
`"sys"`. -/
theorem C9_two_rows_give_six_samples (c : Consts) (db : DB) (varName varVal : GoString)
    (rows : Rows) (v w : Value) (x y : Nat)
    (hdesc : schemaStatDescsOk c)
    (hgate : QueryRowScan db c.userstatCheckQuery scanUserstat = .ok (varName, varVal))
    (hon : varVal ≠ goString "OFF")
    (hquery : db.QueryContext schemaStatQuery = .ok rows)
    (hrows : rows.data =
      [⟨[text "app", text "100", text "5", v], none⟩,
       ⟨[text "sys", text "3", text "0", w], none⟩])
    (hv : scanUint64 3 v = .ok x) (hw : scanUint64 3 w = .ok y) :
    (ScrapeSchemaStat.Scrape c db).outcome = .returned none ∧
    (ScrapeSchemaStat.Scrape c db).sent =
      [⟨infoSchemaStatsRowsReadDesc c, .CounterValue, 100, [goString "app"]⟩,
       ⟨infoSchemaStatsRowsChangedDesc c, .CounterValue, 5, [goString "app"]⟩,
       ⟨infoSchemaStatsRowsChangedXIndexesDesc c, .CounterValue, float64 x, [goString "app"]⟩,
       ⟨infoSchemaStatsRowsReadDesc c, .CounterValue, 3, [goString "sys"]⟩,
       ⟨infoSchemaStatsRowsChangedDesc c, .CounterValue, 0, [goString "sys"]⟩,
       ⟨infoSchemaStatsRowsChangedXIndexesDesc c, .CounterValue, float64 y, [goString "sys"]⟩] ∧
    (ScrapeSchemaStat.Scrape c db).sent.length = 6 := by
  have hscan : rows.data.map scanSchemaStat =
      [(goString "app", 100, 5, x), (goString "sys", 3, 0, y)].map Except.ok := by
    rw [hrows]
    have h100 : scanUint64 1 (text "100") = .ok 100 := rfl
    have h5 : scanUint64 2 (text "5") = .ok 5 := rfl
    have h3 : scanUint64 1 (text "3") = .ok 3 := rfl
    have h0 : scanUint64 2 (text "0") = .ok 0 := rfl
    have happ : scanString 0 (text "app") = .ok (goString "app") := rfl
    have hsys : scanString 0 (text "sys") = .ok (goString "sys") := rfl
    simp only [List.map_cons, List.map_nil, scanSchemaStat, happ, hsys, h100, h5, h3, h0,
      hv, hw]
  have hutf8 : ∀ p ∈ [(goString "app", 100, 5, x), (goString "sys", 3, 0, y)],
      utf8Valid p.1 = true := by
    intro p hp
    simp only [List.mem_cons, List.mem_singleton, List.not_mem_nil, or_false] at hp
    rcases hp with hp | hp <;> subst hp <;> rfl
  rw [schemaStat_Scrape_all_rows c db varName varVal rows _ hdesc hgate hon hquery hscan
    hutf8]
  have f100 : float64 100 = 100 := rfl
  have f5 : float64 5 = 5 := rfl
  have f3 : float64 3 = 3 := rfl
  have f0 : float64 0 = 0 := rfl
  simp [schemaStatSamples, f100, f5, f3, f0]

/-- C9, amended, at `x = 7` and `y = 2`. -/
theorem C9_two_rows_give_six_samples_witness :
    (ScrapeSchemaStat.Scrape exampleConsts
      (exampleDB (userstatIs "ON") (.ok ⟨appSysRows, none, none⟩)
        (.error .canceled))).sent.map (fun m => (m.desc.fqName, m.val, m.labelValues)) =
      [("mysql_info_schema_schema_statistics_rows_read_total", 100, [goString "app"]),
       ("mysql_info_schema_schema_statistics_rows_changed_total", 5, [goString "app"]),
       ("mysql_info_schema_schema_statistics_rows_changed_x_indexes_total", 7,
         [goString "app"]),
       ("mysql_info_schema_schema_statistics_rows_read_total", 3, [goString "sys"]),
       ("mysql_info_schema_schema_statistics_rows_changed_total", 0, [goString "sys"]),
       ("mysql_info_schema_schema_statistics_rows_changed_x_indexes_total", 2,
         [goString "sys"])] :=
  (C9_two_rows_give_six_samples exampleConsts
    (exampleDB (userstatIs "ON") (.ok ⟨appSysRows, none, none⟩) (.error .canceled))
    (goString "userstat") (goString "ON") ⟨appSysRows, none, none⟩ (text "7") (text "2") 7 2
    ⟨rfl, rfl, rfl⟩ rfl (by decide) rfl rfl rfl rfl).2.1 ▸ rfl

/-- C10: for every value other than the exact string `"OFF"` that the userstat
lookup reads, `ScrapeSchemaStat.Scrape` goes on to execute the statistics query, and
what it returns and sends is the same for any two runs that get the same answer to
that query. -/
theorem C10_gate_closed_only_by_OFF (c : Consts) (db : DB) (varName varVal : GoString)
    (hgate : QueryRowScan db c.userstatCheckQuery scanUserstat = .ok (varName, varVal))
    (hon : varVal ≠ goString "OFF") :
    (ScrapeSchemaStat.Scrape c db).queries = [c.userstatCheckQuery, schemaStatQuery] ∧
    ∀ (db2 : DB) (varName2 varVal2 : GoString),
      QueryRowScan db2 c.userstatCheckQuery scanUserstat = .ok (varName2, varVal2) →
      varVal2 ≠ goString "OFF" →
      db2.QueryContext schemaStatQuery = db.QueryContext schemaStatQuery →
      (ScrapeSchemaStat.Scrape c db2).outcome = (ScrapeSchemaStat.Scrape c db).outcome ∧
      (ScrapeSchemaStat.Scrape c db2).sent = (ScrapeSchemaStat.Scrape c db).sent := by
  refine ⟨?_, ?_⟩
  · rw [schemaStat_Scrape_open c db varName varVal hgate hon]
    cases db.QueryContext schemaStatQuery <;> rfl
  · intro db2 varName2 varVal2 hgate2 hon2 hsame
    rw [schemaStat_Scrape_open c db varName varVal hgate hon,
      schemaStat_Scrape_open c db2 varName2 varVal2 hgate2 hon2, hsame]
    cases db.QueryContext schemaStatQuery <;> exact ⟨rfl, rfl⟩

/-- C10 at the values `"off"`, `"0"` and `""`, each compared with the value `"ON"`. -/
theorem C10_gate_closed_only_by_OFF_witness :
    ((ScrapeSchemaStat.Scrape exampleConsts
        (exampleDB (userstatIs "off") (.ok ⟨appSysRows, none, none⟩)
          (.error .canceled))).queries = [exampleConsts.userstatCheckQuery, schemaStatQuery] ∧
      (ScrapeSchemaStat.Scrape exampleConsts
        (exampleDB (userstatIs "off") (.ok ⟨appSysRows, none, none⟩)
          (.error .canceled))).sent.length = 6) ∧
    ((ScrapeSchemaStat.Scrape exampleConsts
        (exampleDB (userstatIs "0") (.ok ⟨appSysRows, none, none⟩)
          (.error .canceled))).queries = [exampleConsts.userstatCheckQuery, schemaStatQuery] ∧
      (ScrapeSchemaStat.Scrape exampleConsts
        (exampleDB (userstatIs "0") (.ok ⟨appSysRows, none, none⟩)
          (.error .canceled))).sent.length = 6) ∧
    ((ScrapeSchemaStat.Scrape exampleConsts
        (exampleDB (userstatIs "") (.error (.driver "no such table"))
          (.error .canceled))).queries = [exampleConsts.userstatCheckQuery, schemaStatQuery] ∧
      (ScrapeSchemaStat.Scrape exampleConsts
        (exampleDB (userstatIs "ON") (.error (.driver "no such table"))
          (.error .canceled))).outcome =
        (ScrapeSchemaStat.Scrape exampleConsts
          (exampleDB (userstatIs "") (.error (.driver "no such table"))
            (.error .canceled))).outcome) :=
  ⟨⟨(C10_gate_closed_only_by_OFF exampleConsts
        (exampleDB (userstatIs "off") (.ok ⟨appSysRows, none, none⟩) (.error .canceled))
        (goString "userstat") (goString "off") rfl (by decide)).1, rfl⟩,
   ⟨(C10_gate_closed_only_by_OFF exampleConsts
        (exampleDB (userstatIs "0") (.ok ⟨appSysRows, none, none⟩) (.error .canceled))
        (goString "userstat") (goString "0") rfl (by decide)).1, rfl⟩,
   ⟨(C10_gate_closed_only_by_OFF exampleConsts
        (exampleDB (userstatIs "") (.error (.driver "no such table")) (.error .canceled))
        (goString "userstat") (goString "") rfl (by decide)).1,
    ((C10_gate_closed_only_by_OFF exampleConsts
        (exampleDB (userstatIs "") (.error (.driver "no such table")) (.error .canceled))
        (goString "userstat") (goString "") rfl (by decide)).2
        (exampleDB (userstatIs "ON") (.error (.driver "no such table")) (.error .canceled))
        (goString "userstat") (goString "ON") rfl (by decide) rfl).1⟩⟩

end Collector
